import Mathlib

/-!
Verification of the sidebar store modules (`session`, `directLinked`), the
side-by-side layout fitting of `HTMLIntegration`, and the `NotebookModal`
component of the annotation client, as shallow embeddings in Lean.
-/

namespace Client

/-! ## Session store module (`src/sidebar/store/modules/session.js`) -/

namespace Session

/-- A user profile, as fetched from the `/api/profile` endpoint:
a map of feature flags, a map of preferences, and the authenticated
user ID (`none` models JS `null`, i.e. not logged in). -/
structure Profile where
  features : List (String × Bool)
  preferences : List (String × String)
  userid : Option String
deriving DecidableEq

/-- A dummy profile returned by the `profile` selector before the real
profile is fetched. -/
def initialProfile : Profile :=
  { features := [], preferences := [], userid := none }

/-- The slice of the client configuration (`SidebarSettings`) read by the
store modules. Each field is `none` when the setting is absent
(JS `undefined`); a present string may still be empty. -/
structure Settings where
  authDomain : Option String
  group : Option String
  annotations : Option String
deriving DecidableEq

/-- The profile slot of the session state. JS compares profile objects by
reference in `hasFetchedProfile` (`state.profile !== initialProfile`), so the
embedding carries, next to the profile's fields, whether the slot still holds
the `initialProfile` object itself (`isInitialRef`). -/
structure ProfileObj where
  value : Profile
  isInitialRef : Bool
deriving DecidableEq

/-- Session module state: the default authority string and the profile. -/
structure SessionState where
  defaultAuthority : String
  profile : ProfileObj
deriving DecidableEq

/-- Source `initialState(settings)`: `defaultAuthority` is `settings?.authDomain ?? ''`
(the nullish coalescing keeps a present string, even an empty one, and falls
back to `''` only when the setting is absent); the profile slot holds the
`initialProfile` object. -/
def initialState (settings : Settings) : SessionState :=
  { defaultAuthority := settings.authDomain.getD ""
    profile := ⟨initialProfile, true⟩ }

/-- A partial state record as returned by a session reducer: exactly the
fields the reducer's returned object literal carries. -/
structure Update where
  defaultAuthority : Option String := none
  profile : Option ProfileObj := none

/-- Modelled from the spec: the store-module layer (`create-store.js`, not
among the sources) holds each module's record in a single global store and
applies the record a reducer returns by updating exactly the returned fields
of the module state, leaving the other fields unchanged. -/
def applyUpdate (s : SessionState) (u : Update) : SessionState :=
  { defaultAuthority := u.defaultAuthority.getD s.defaultAuthority
    profile := u.profile.getD s.profile }

/-- Reducer `UPDATE_PROFILE`: returns `{ profile: { ...action.profile } }`.
The spread copies the fields of `action.profile` into a fresh object, so the
stored slot is never the `initialProfile` object (`isInitialRef := false`). -/
def UPDATE_PROFILE (p : Profile) : Update :=
  { profile := some ⟨p, false⟩ }

/-- The actions of the session module (one reducer key, `UPDATE_PROFILE`),
as produced by `makeAction`. -/
inductive Action where
  | updateProfileAction (profile : Profile)
deriving DecidableEq

/-- Action creator `updateProfile(profile)`. -/
def updateProfile (p : Profile) : Action :=
  .updateProfileAction p

/-- Dispatch one action: run its reducer and apply the returned record. -/
def reduce (s : SessionState) : Action → SessionState
  | .updateProfileAction p => applyUpdate s (UPDATE_PROFILE p)

/-- Selector `defaultAuthority`. -/
def defaultAuthority (s : SessionState) : String :=
  s.defaultAuthority

/-- Selector `isLoggedIn`: `state.profile.userid !== null`. -/
def isLoggedIn (s : SessionState) : Bool :=
  s.profile.value.userid.isSome

/-- Selector `isFeatureEnabled`: `!!state.profile.features[feature]`; a
missing key is `undefined`, hence falsy. -/
def isFeatureEnabled (s : SessionState) (feature : String) : Bool :=
  (s.profile.value.features.lookup feature).getD false

/-- Selector `hasFetchedProfile`: `state.profile !== initialProfile`, a
reference comparison against the `initialProfile` object. -/
def hasFetchedProfile (s : SessionState) : Bool :=
  !s.profile.isInitialRef

/-- Selector `profile`: returns `state.profile`. -/
def profile (s : SessionState) : ProfileObj :=
  s.profile

end Session

/-! ## Direct-linked store module (`src/sidebar/store/modules/direct-linked.js`) -/

namespace DirectLinked

open Session (Settings)

/-- Direct-linked module state: the direct-linked group and annotation IDs
(`none` models JS `null`) and the group-fetch-failed flag. -/
structure DirectLinkedState where
  directLinkedGroupId : Option String
  directLinkedAnnotationId : Option String
  directLinkedGroupFetchFailed : Bool
deriving DecidableEq

/-- JS `v || null` on a string-or-absent setting: a present, non-empty string
is kept; an absent setting or an empty string (falsy) becomes `null`. -/
def orNull (v : Option String) : Option String :=
  match v with
  | some s => if s = "" then none else some s
  | none => none

/-- Source `initialState(settings)`: both IDs are read from the client configuration
with `|| null`, and the fetch-failed flag starts `false`. -/
def initialState (settings : Settings) : DirectLinkedState :=
  { directLinkedGroupId := orNull settings.group
    directLinkedAnnotationId := orNull settings.annotations
    directLinkedGroupFetchFailed := false }

/-- A partial state record as returned by a direct-linked reducer: exactly
the fields the reducer's returned object literal carries. -/
structure Update where
  directLinkedGroupId : Option (Option String) := none
  directLinkedAnnotationId : Option (Option String) := none
  directLinkedGroupFetchFailed : Option Bool := none

/-- Modelled from the spec: the store-module layer (`create-store.js`, not
among the sources) applies the record a reducer returns by updating exactly
the returned fields of the module state, leaving the other fields
unchanged. -/
def applyUpdate (s : DirectLinkedState) (u : Update) : DirectLinkedState :=
  { directLinkedGroupId := u.directLinkedGroupId.getD s.directLinkedGroupId
    directLinkedAnnotationId :=
      u.directLinkedAnnotationId.getD s.directLinkedAnnotationId
    directLinkedGroupFetchFailed :=
      u.directLinkedGroupFetchFailed.getD s.directLinkedGroupFetchFailed }

/-- Reducer `UPDATE_DIRECT_LINKED_GROUP_FETCH_FAILED`: returns
`{ directLinkedGroupFetchFailed: action.directLinkedGroupFetchFailed }`. -/
def UPDATE_DIRECT_LINKED_GROUP_FETCH_FAILED (b : Bool) : Update :=
  { directLinkedGroupFetchFailed := some b }

/-- Reducer `UPDATE_DIRECT_LINKED_GROUP_ID`: returns
`{ directLinkedGroupId: action.directLinkedGroupId }`. -/
def UPDATE_DIRECT_LINKED_GROUP_ID (v : Option String) : Update :=
  { directLinkedGroupId := some v }

/-- Reducer `UPDATE_DIRECT_LINKED_ANNOTATION_ID`: returns
`{ directLinkedAnnotationId: action.directLinkedAnnotationId }`. -/
def UPDATE_DIRECT_LINKED_ANNOTATION_ID (v : Option String) : Update :=
  { directLinkedAnnotationId := some v }

/-- Reducer `CLEAR_DIRECT_LINKED_IDS`: returns both IDs set to `null` and
does not mention the fetch-failed flag. -/
def CLEAR_DIRECT_LINKED_IDS : Update :=
  { directLinkedAnnotationId := some none
    directLinkedGroupId := some none }

/-- Reducer `CLEAR_SELECTION`: returns both IDs set to `null` and the
fetch-failed flag set to `false`. -/
def CLEAR_SELECTION : Update :=
  { directLinkedAnnotationId := some none
    directLinkedGroupId := some none
    directLinkedGroupFetchFailed := some false }

/-- The actions handled by the direct-linked module's reducers, as produced
by `makeAction` (a type tag plus the payload fields). -/
inductive Action where
  | updateGroupFetchFailed (directLinkedGroupFetchFailed : Bool)
  | updateGroupId (directLinkedGroupId : Option String)
  | updateAnnId (directLinkedAnnotationId : Option String)
  | clearIds
  | clearSel
deriving DecidableEq

/-- Action creator `setDirectLinkedGroupId(groupId)`. -/
def setDirectLinkedGroupId (groupId : Option String) : Action :=
  .updateGroupId groupId

/-- Action creator `setDirectLinkedAnnotationId(annId)`. -/
def setDirectLinkedAnnotationId (annId : Option String) : Action :=
  .updateAnnId annId

/-- Action creator `setDirectLinkedGroupFetchFailed()`: dispatches
`UPDATE_DIRECT_LINKED_GROUP_FETCH_FAILED` with the flag `true`. -/
def setDirectLinkedGroupFetchFailed : Action :=
  .updateGroupFetchFailed true

/-- Action creator `clearDirectLinkedGroupFetchFailed()`: dispatches
`UPDATE_DIRECT_LINKED_GROUP_FETCH_FAILED` with the flag `false`. -/
def clearDirectLinkedGroupFetchFailed : Action :=
  .updateGroupFetchFailed false

/-- Action creator `clearDirectLinkedIds()`. -/
def clearDirectLinkedIds : Action :=
  .clearIds

/-- Dispatch one action: run its reducer and apply the returned record. -/
def reduce (s : DirectLinkedState) : Action → DirectLinkedState
  | .updateGroupFetchFailed b =>
      applyUpdate s (UPDATE_DIRECT_LINKED_GROUP_FETCH_FAILED b)
  | .updateGroupId v => applyUpdate s (UPDATE_DIRECT_LINKED_GROUP_ID v)
  | .updateAnnId v => applyUpdate s (UPDATE_DIRECT_LINKED_ANNOTATION_ID v)
  | .clearIds => applyUpdate s CLEAR_DIRECT_LINKED_IDS
  | .clearSel => applyUpdate s CLEAR_SELECTION

/-- Dispatch a sequence of actions in order. -/
def run (s : DirectLinkedState) (as : List Action) : DirectLinkedState :=
  as.foldl reduce s

/-- Selector `directLinkedAnnotationId`. -/
def directLinkedAnnotationId (s : DirectLinkedState) : Option String :=
  s.directLinkedAnnotationId

/-- Selector `directLinkedGroupId`. -/
def directLinkedGroupId (s : DirectLinkedState) : Option String :=
  s.directLinkedGroupId

/-- Selector `directLinkedGroupFetchFailed`. -/
def directLinkedGroupFetchFailed (s : DirectLinkedState) : Bool :=
  s.directLinkedGroupFetchFailed

/-- The value an action writes to the fetch-failed flag, if any:
`UPDATE_DIRECT_LINKED_GROUP_FETCH_FAILED` writes its payload,
`CLEAR_SELECTION` writes `false`, and the remaining reducers do not touch
the flag. -/
def flagVal : Action → Option Bool
  | .updateGroupFetchFailed b => some b
  | .clearSel => some false
  | _ => none

end DirectLinked

/-! ## `HTMLIntegration#fitSideBySide` (side-by-side layout fitting)

The repository sources contain the test suite of `HTMLIntegration` but not
`src/annotator/integrations/html.js` itself, so the geometry of
`fitSideBySide` is modelled from the spec and validated against the test
suite's expectations. -/

namespace HTMLInt

/-- The sidebar layout passed to `fitSideBySide`: whether the sidebar is
expanded and its width in pixels. -/
structure Layout where
  expanded : Bool
  width : Int
deriving DecidableEq

/-- The horizontal extent of the main content area, as guessed by
`guessMainContentArea` (left and right edges in viewport coordinates). -/
structure ContentRect where
  left : Int
  right : Int
deriving DecidableEq

/-- The inline left/right margin styles of the document body; `none` models
an unset style. -/
structure BodyMargins where
  marginLeft : Option Int
  marginRight : Option Int
deriving DecidableEq

/-- The minimum width for the main content area for side-by-side mode to
activate (480px; the test suite: "Minimum available content width for
side-by-side is 480"). -/
def minContentWidth : Int := 480

/-- The padding placed between the content and the window/sidebar edges
(12px in the test suite). -/
def sideBySidePadding : Int := 12

/-- Modelled from the spec: the `fitSideBySide` method of `HTMLIntegration`
(`src/annotator/integrations/html.js` is absent from the sources; only its
test suite is present). With side-by-side disabled it changes nothing. When
enabled: a call with the sidebar expanded to width `w` first checks that the
viewport width minus `w` minus the padding leaves at least the 480px minimum
content width; if not, or if the main content area cannot be determined, the
body margins are left unchanged. Otherwise the body's left margin is set to
the 12px padding and its right margin to `w` plus padding, reduced by the
width of any non-main content lying to the right of the main content (the
space between the main content's right edge and the viewport area left for
content). A call with the sidebar not expanded removes both margins. -/
def fitSideBySide (sideBySideEnabled : Bool) (innerWidth : Int)
    (mainContentArea : Option ContentRect) (layout : Layout)
    (margins : BodyMargins) : BodyMargins :=
  if !sideBySideEnabled then margins
  else if !layout.expanded then ⟨none, none⟩
  else if innerWidth - layout.width - sideBySidePadding < minContentWidth then
    margins
  else
    match mainContentArea with
    | none => margins
    | some rect =>
        let spaceRight :=
          max 0 (innerWidth - layout.width - sideBySidePadding - rect.right)
        ⟨some sideBySidePadding,
         some (layout.width + sideBySidePadding - spaceRight)⟩

end HTMLInt

/-! ## `NotebookModal` component (`src/sidebar/components/NotebookModal.js`) -/

namespace Notebook

/-- The events that drive the `NotebookModal` component: an `openNotebook`
event on the event bus, a click on the close button, and destruction
(unmount) of the component. -/
inductive Event where
  | openNotebook
  | closeButton
  | destroy
deriving DecidableEq

/-- The observable state of a mounted `NotebookModal`: the `isHidden` flag,
whether the component has been destroyed, the `document.body.style.overflow`
value captured on mount (`originalOverflow`), the current
`document.body.style.overflow` (`bodyOverflow`), and the events published on
the event bus so far. -/
structure ModalState where
  isHidden : Bool
  destroyed : Bool
  originalOverflow : String
  bodyOverflow : String
  published : List String
deriving DecidableEq

/-- Mounting the component over a body whose overflow style is `o`: the
modal starts hidden, the mount effect records `o` as the original overflow,
and the `[isHidden]` effect leaves the overflow at its original value while
hidden. -/
def init (o : String) : ModalState :=
  { isHidden := true
    destroyed := false
    originalOverflow := o
    bodyOverflow := o
    published := [] }

/-- One event-loop step of the component. An `openNotebook` event calls
`setIsHidden(false)` and the `[isHidden]` effect sets the body overflow to
`'hidden'`. A close-button click calls `setIsHidden(true)`, publishes
`'closeNotebook'`, and the effect restores the original overflow. Destroying
the component runs the mount effect's cleanup, restoring the original
overflow. A destroyed component (emitter destroyed, effects cleaned up)
reacts to nothing. -/
def step (s : ModalState) : Event → ModalState
  | .openNotebook =>
      if s.destroyed then s
      else { s with isHidden := false, bodyOverflow := "hidden" }
  | .closeButton =>
      if s.destroyed then s
      else
        { s with
            isHidden := true
            bodyOverflow := s.originalOverflow
            published := s.published ++ [ "closeNotebook" ] }
  | .destroy =>
      if s.destroyed then s
      else { s with destroyed := true, bodyOverflow := s.originalOverflow }

/-- Run a sequence of events from a state. -/
def run (s : ModalState) (es : List Event) : ModalState :=
  es.foldl step s

/-- The overflow invariant of the modal over a body whose overflow style was
`o` at mount: the recorded original style is `o`; while the component is
alive, the body overflow is `'hidden'` exactly when the modal is visible and
`o` when it is hidden; after destruction the body overflow is back to
`o`. -/
def Inv (o : String) (s : ModalState) : Prop :=
  s.originalOverflow = o ∧
  (s.destroyed = false → s.bodyOverflow = if s.isHidden then o else "hidden") ∧
  (s.destroyed = true → s.bodyOverflow = o)

end Notebook

/-! ## Theorems -/

/-- C2: for every session state and every profile value `p` (including the
dummy initial profile itself), after `UPDATE_PROFILE` with `p` the selector
`hasFetchedProfile` returns `true`, because the reducer stores a fresh copy
of `p` rather than the `initialProfile` object; on the initial state, before
any `UPDATE_PROFILE`, `hasFetchedProfile` returns `false`. -/
theorem c2_hasFetchedProfile (settings : Session.Settings)
    (s : Session.SessionState) (p : Session.Profile) :
    Session.hasFetchedProfile (Session.reduce s (Session.updateProfile p)) = true ∧
    (Session.reduce s (Session.updateProfile p)).profile.isInitialRef = false ∧
    Session.hasFetchedProfile (Session.initialState settings) = false :=
  ⟨rfl, rfl, rfl⟩

/-- C4: fallback defaults before any data is fetched. For every settings
value, the session initial state's `defaultAuthority` equals
`settings.authDomain` when present and `''` otherwise; the `profile`
selector returns the dummy logged-out profile (empty features map, empty
preferences map, null userid); consequently `isLoggedIn` is `false` on the
initial state. -/
theorem c4_fallback_defaults (settings : Session.Settings) :
    (∀ d, settings.authDomain = some d →
      (Session.initialState settings).defaultAuthority = d) ∧
    (settings.authDomain = none →
      (Session.initialState settings).defaultAuthority = "") ∧
    (Session.profile (Session.initialState settings)).value =
      Session.initialProfile ∧
    Session.initialProfile.features = [] ∧
    Session.initialProfile.preferences = [] ∧
    Session.initialProfile.userid = none ∧
    Session.isLoggedIn (Session.initialState settings) = false := by
  refine ⟨fun d hd => ?_, fun hd => ?_, rfl, rfl, rfl, rfl, rfl⟩ <;>
    simp [Session.initialState, hd]

/-- C4 witness: with `authDomain` set to `"hypothes.is"`, the initial
default authority is `"hypothes.is"` and the user is not logged in. -/
theorem c4_fallback_defaults_witness :
    (Session.initialState ⟨some "hypothes.is", none, none⟩).defaultAuthority =
      "hypothes.is" ∧
    Session.isLoggedIn (Session.initialState ⟨some "hypothes.is", none, none⟩) =
      false :=
  ⟨(c4_fallback_defaults ⟨some "hypothes.is", none, none⟩).1 "hypothes.is" rfl,
   (c4_fallback_defaults ⟨some "hypothes.is", none, none⟩).2.2.2.2.2.2⟩

/-- C5: `isFeatureEnabled` returns `true` exactly when the feature map of
the current profile holds a truthy value for the flag; with the initial
dummy profile every feature flag is disabled. -/
theorem c5_isFeatureEnabled (s : Session.SessionState) (f : String)
    (settings : Session.Settings) :
    (Session.isFeatureEnabled s f = true ↔
      s.profile.value.features.lookup f = some true) ∧
    Session.isFeatureEnabled (Session.initialState settings) f = false := by
  constructor
  · unfold Session.isFeatureEnabled
    cases h : s.profile.value.features.lookup f with
    | none => simp [h]
    | some b => cases b <;> simp [h]
  · rfl

/-- C5 witness: a feature present with value `true` in the profile's map is
reported enabled. -/
theorem c5_isFeatureEnabled_witness :
    Session.isFeatureEnabled ⟨ "", ⟨⟨[( "flag1", true)], [], none⟩, false⟩⟩
      "flag1" = true :=
  (c5_isFeatureEnabled ⟨ "", ⟨⟨[( "flag1", true)], [], none⟩, false⟩⟩ "flag1"
    ⟨none, none, none⟩).1.mpr (by simp)

/-- C6: the initial direct-linked state takes its IDs from the client
configuration: `directLinkedGroupId` equals `settings.group` when that is a
non-empty value and `null` otherwise, and `directLinkedAnnotationId` equals
`settings.annotations` when that is a non-empty value and `null`
otherwise. -/
theorem c6_initial_ids (settings : Session.Settings) :
    (∀ g, settings.group = some g → g ≠ "" →
      (DirectLinked.initialState settings).directLinkedGroupId = some g) ∧
    (settings.group = none ∨ settings.group = some "" →
      (DirectLinked.initialState settings).directLinkedGroupId = none) ∧
    (∀ a, settings.annotations = some a → a ≠ "" →
      (DirectLinked.initialState settings).directLinkedAnnotationId = some a) ∧
    (settings.annotations = none ∨ settings.annotations = some "" →
      (DirectLinked.initialState settings).directLinkedAnnotationId = none) := by
  refine ⟨fun g hg hne => ?_, fun hg => ?_, fun a ha hne => ?_, fun ha => ?_⟩
  · simp [DirectLinked.initialState, DirectLinked.orNull, hg, hne]
  · rcases hg with hg | hg <;> simp [DirectLinked.initialState, DirectLinked.orNull, hg]
  · simp [DirectLinked.initialState, DirectLinked.orNull, ha, hne]
  · rcases ha with ha | ha <;> simp [DirectLinked.initialState, DirectLinked.orNull, ha]

/-- C6 witness: with `group` set to `"g1"` and `annotations` set to the
empty string, the initial group ID is `"g1"` and the initial annotation ID
is `null`. -/
theorem c6_initial_ids_witness :
    (DirectLinked.initialState ⟨none, some "g1", some ""⟩).directLinkedGroupId =
      some "g1" ∧
    (DirectLinked.initialState ⟨none, some "g1", some ""⟩).directLinkedAnnotationId =
      none :=
  ⟨(c6_initial_ids ⟨none, some "g1", some ""⟩).1 "g1" rfl (by decide),
   (c6_initial_ids ⟨none, some "g1", some ""⟩).2.2.2 (Or.inr rfl)⟩

/-- C7: round trip of the profile through the store. After
`updateProfile(p)` the `profile` selector returns a profile whose fields
equal those of `p`, and the `defaultAuthority` field of the state is
unchanged. -/
theorem c7_profile_round_trip (s : Session.SessionState) (p : Session.Profile) :
    (Session.profile (Session.reduce s (Session.updateProfile p))).value = p ∧
    (Session.profile (Session.reduce s (Session.updateProfile p))).value.features =
      p.features ∧
    (Session.profile (Session.reduce s (Session.updateProfile p))).value.preferences =
      p.preferences ∧
    (Session.profile (Session.reduce s (Session.updateProfile p))).value.userid =
      p.userid ∧
    (Session.reduce s (Session.updateProfile p)).defaultAuthority =
      s.defaultAuthority :=
  ⟨rfl, rfl, rfl, rfl, rfl⟩

/-- C8: `clearDirectLinkedIds` sets both IDs to `null` and leaves the
fetch-failed flag unchanged; only `CLEAR_SELECTION` additionally resets the
fetch-failed flag to `false` (while also clearing both IDs). -/
theorem c8_clear_ids_frame (s : DirectLinked.DirectLinkedState) :
    (DirectLinked.reduce s DirectLinked.clearDirectLinkedIds).directLinkedAnnotationId =
      none ∧
    (DirectLinked.reduce s DirectLinked.clearDirectLinkedIds).directLinkedGroupId =
      none ∧
    (DirectLinked.reduce s DirectLinked.clearDirectLinkedIds).directLinkedGroupFetchFailed =
      s.directLinkedGroupFetchFailed ∧
    (DirectLinked.reduce s DirectLinked.Action.clearSel).directLinkedAnnotationId =
      none ∧
    (DirectLinked.reduce s DirectLinked.Action.clearSel).directLinkedGroupId =
      none ∧
    (DirectLinked.reduce s DirectLinked.Action.clearSel).directLinkedGroupFetchFailed =
      false :=
  ⟨rfl, rfl, rfl, rfl, rfl, rfl⟩

/-- C9: `setDirectLinkedGroupId(v)` sets `directLinkedGroupId` to `v` and
leaves `directLinkedAnnotationId` and `directLinkedGroupFetchFailed`
unchanged; symmetrically `setDirectLinkedAnnotationId(v)` sets
`directLinkedAnnotationId` to `v` and leaves `directLinkedGroupId` and
`directLinkedGroupFetchFailed` unchanged. -/
theorem c9_set_id_frame (s : DirectLinked.DirectLinkedState) (v : Option String) :
    (DirectLinked.reduce s (DirectLinked.setDirectLinkedGroupId v)).directLinkedGroupId =
      v ∧
    (DirectLinked.reduce s (DirectLinked.setDirectLinkedGroupId v)).directLinkedAnnotationId =
      s.directLinkedAnnotationId ∧
    (DirectLinked.reduce s (DirectLinked.setDirectLinkedGroupId v)).directLinkedGroupFetchFailed =
      s.directLinkedGroupFetchFailed ∧
    (DirectLinked.reduce s (DirectLinked.setDirectLinkedAnnotationId v)).directLinkedAnnotationId =
      v ∧
    (DirectLinked.reduce s (DirectLinked.setDirectLinkedAnnotationId v)).directLinkedGroupId =
      s.directLinkedGroupId ∧
    (DirectLinked.reduce s (DirectLinked.setDirectLinkedAnnotationId v)).directLinkedGroupFetchFailed =
      s.directLinkedGroupFetchFailed :=
  ⟨rfl, rfl, rfl, rfl, rfl, rfl⟩

/-- The fetch-failed flag after one dispatch is the value the action writes
to it, if any, and the previous flag otherwise. -/
theorem reduce_flag (s : DirectLinked.DirectLinkedState) (a : DirectLinked.Action) :
    (DirectLinked.reduce s a).directLinkedGroupFetchFailed =
      (DirectLinked.flagVal a).getD s.directLinkedGroupFetchFailed := by
  cases a <;> rfl

/-- Decomposing a snoc list against an append-cons split: the distinguished
element `x` is either the final element or lies strictly before it. -/
theorem snoc_eq_append_cons {α : Type} {as pre post : List α} {a x : α}
    (h : as ++ [a] = pre ++ x :: post) :
    (post = [] ∧ as = pre ∧ a = x) ∨
      ∃ q, post = q ++ [a] ∧ as = pre ++ x :: q := by
  rcases post.eq_nil_or_concat with rfl | ⟨q, b, rfl⟩
  · rcases List.append_inj' h rfl with ⟨h1, h2⟩
    exact Or.inl ⟨rfl, h1, by simpa using h2⟩
  · have h' : as ++ [a] = (pre ++ x :: q) ++ [b] := by
      simpa [List.append_assoc] using h
    rcases List.append_inj' h' rfl with ⟨h1, h2⟩
    have hb : a = b := by simpa using h2
    exact Or.inr ⟨q, by simp [hb], h1⟩

/-- Starting from a state whose fetch-failed flag is `false`, running a
sequence of actions leaves the flag `true` exactly when the sequence holds a
`UPDATE_DIRECT_LINKED_GROUP_FETCH_FAILED(true)` action that no clearing
action (`UPDATE_DIRECT_LINKED_GROUP_FETCH_FAILED(false)` or
`CLEAR_SELECTION`) follows. -/
theorem run_flag_iff (s : DirectLinked.DirectLinkedState)
    (hs : s.directLinkedGroupFetchFailed = false)
    (as : List DirectLinked.Action) :
    (DirectLinked.run s as).directLinkedGroupFetchFailed = true ↔
      ∃ pre post,
        as = pre ++ DirectLinked.Action.updateGroupFetchFailed true :: post ∧
        DirectLinked.Action.updateGroupFetchFailed false ∉ post ∧
        DirectLinked.Action.clearSel ∉ post := by
  induction as using List.reverseRecOn with
  | nil =>
      simp only [DirectLinked.run, List.foldl_nil, hs]
      constructor
      · intro h
        exact absurd h (by simp)
      · rintro ⟨pre, post, heq, -, -⟩
        exact absurd heq (by simp)
  | append_singleton as a ih =>
      have hsplit : DirectLinked.run s (as ++ [a]) =
          DirectLinked.reduce (DirectLinked.run s as) a := by
        simp [DirectLinked.run, List.foldl_append]
      rw [hsplit, reduce_flag]
      cases a with
      | updateGroupFetchFailed b =>
          cases b with
          | true =>
              exact iff_of_true rfl ⟨as, [], rfl, by simp, by simp⟩
          | false =>
              simp only [DirectLinked.flagVal, Option.getD_some]
              constructor
              · intro h
                exact absurd h (by simp)
              · rintro ⟨pre, post, heq, hn1, hn2⟩
                rcases snoc_eq_append_cons heq with ⟨-, -, hax⟩ | ⟨q, rfl, -⟩
                · simp at hax
                · exact absurd (by simp) hn1
      | updateGroupId v =>
          simp only [DirectLinked.flagVal, Option.getD_none]
          rw [ih]
          constructor
          · rintro ⟨pre, post, rfl, hn1, hn2⟩
            refine ⟨pre, post ++ [DirectLinked.Action.updateGroupId v],
              by simp, ?_, ?_⟩ <;> simp_all
          · rintro ⟨pre, post, heq, hn1, hn2⟩
            rcases snoc_eq_append_cons heq with ⟨-, -, hax⟩ | ⟨q, rfl, rfl⟩
            · simp at hax
            · exact ⟨pre, q, rfl, fun hm => hn1 (by simp [hm]),
                fun hm => hn2 (by simp [hm])⟩
      | updateAnnId v =>
          simp only [DirectLinked.flagVal, Option.getD_none]
          rw [ih]
          constructor
          · rintro ⟨pre, post, rfl, hn1, hn2⟩
            refine ⟨pre, post ++ [DirectLinked.Action.updateAnnId v],
              by simp, ?_, ?_⟩ <;> simp_all
          · rintro ⟨pre, post, heq, hn1, hn2⟩
            rcases snoc_eq_append_cons heq with ⟨-, -, hax⟩ | ⟨q, rfl, rfl⟩
            · simp at hax
            · exact ⟨pre, q, rfl, fun hm => hn1 (by simp [hm]),
                fun hm => hn2 (by simp [hm])⟩
      | clearIds =>
          simp only [DirectLinked.flagVal, Option.getD_none]
          rw [ih]
          constructor
          · rintro ⟨pre, post, rfl, hn1, hn2⟩
            refine ⟨pre, post ++ [DirectLinked.Action.clearIds],
              by simp, ?_, ?_⟩ <;> simp_all
          · rintro ⟨pre, post, heq, hn1, hn2⟩
            rcases snoc_eq_append_cons heq with ⟨-, -, hax⟩ | ⟨q, rfl, rfl⟩
            · simp at hax
            · exact ⟨pre, q, rfl, fun hm => hn1 (by simp [hm]),
                fun hm => hn2 (by simp [hm])⟩
      | clearSel =>
          simp only [DirectLinked.flagVal, Option.getD_some]
          constructor
          · intro h
            exact absurd h (by simp)
          · rintro ⟨pre, post, heq, hn1, hn2⟩
            rcases snoc_eq_append_cons heq with ⟨-, -, hax⟩ | ⟨q, rfl, -⟩
            · simp at hax
            · exact absurd (by simp) hn2

/-- C3: the fetch-failed flag is `false` in the initial direct-linked state;
`setDirectLinkedGroupFetchFailed` sets it to `true`,
`clearDirectLinkedGroupFetchFailed` sets it to `false`, `CLEAR_SELECTION`
resets it to `false`; hence on any action sequence from the initial state
the selector `directLinkedGroupFetchFailed` returns `true` exactly after a
`setDirectLinkedGroupFetchFailed` not followed by either clearing action. -/
theorem c3_fetch_failed_lifecycle (settings : Session.Settings)
    (s : DirectLinked.DirectLinkedState) (as : List DirectLinked.Action) :
    DirectLinked.directLinkedGroupFetchFailed
      (DirectLinked.initialState settings) = false ∧
    DirectLinked.directLinkedGroupFetchFailed
      (DirectLinked.reduce s DirectLinked.setDirectLinkedGroupFetchFailed) = true ∧
    DirectLinked.directLinkedGroupFetchFailed
      (DirectLinked.reduce s DirectLinked.clearDirectLinkedGroupFetchFailed) = false ∧
    DirectLinked.directLinkedGroupFetchFailed
      (DirectLinked.reduce s DirectLinked.Action.clearSel) = false ∧
    (DirectLinked.directLinkedGroupFetchFailed
        (DirectLinked.run (DirectLinked.initialState settings) as) = true ↔
      ∃ pre post,
        as = pre ++ DirectLinked.setDirectLinkedGroupFetchFailed :: post ∧
        DirectLinked.clearDirectLinkedGroupFetchFailed ∉ post ∧
        DirectLinked.Action.clearSel ∉ post) :=
  ⟨rfl, rfl, rfl, rfl, run_flag_iff _ rfl as⟩

/-- C3 witness: from the initial state of an empty configuration,
dispatching `setDirectLinkedGroupFetchFailed` alone leaves the selector
reporting `true`. -/
theorem c3_fetch_failed_lifecycle_witness :
    DirectLinked.directLinkedGroupFetchFailed
      (DirectLinked.run (DirectLinked.initialState ⟨none, none, none⟩)
        [DirectLinked.setDirectLinkedGroupFetchFailed]) = true :=
  (c3_fetch_failed_lifecycle ⟨none, none, none⟩
      (DirectLinked.initialState ⟨none, none, none⟩)
      [DirectLinked.setDirectLinkedGroupFetchFailed]).2.2.2.2.mpr
    ⟨[], [], rfl, by simp, by simp⟩

/-- C1: behaviour of `fitSideBySide`. With side-by-side disabled it changes
nothing. When enabled and the sidebar is expanded to width `w`: if the main
content area is found and the viewport width minus `w` minus the padding is
at least the 480px minimum content width, the body's left margin is set to
the 12px padding and its right margin to `w` plus padding, reduced by the
width of any non-main content to the right of the main content; if the
remaining width is below 480px or the main content area cannot be
determined, the body margins are left unchanged; calling with the sidebar
not expanded removes the margins. -/
theorem c1_fitSideBySide (enabled : Bool) (innerWidth : Int)
    (area : Option HTMLInt.ContentRect) (layout : HTMLInt.Layout)
    (m : HTMLInt.BodyMargins) :
    (enabled = false →
      HTMLInt.fitSideBySide enabled innerWidth area layout m = m) ∧
    (layout.expanded = false →
      HTMLInt.fitSideBySide true innerWidth area layout m = ⟨none, none⟩) ∧
    (layout.expanded = true →
      innerWidth - layout.width - HTMLInt.sideBySidePadding <
        HTMLInt.minContentWidth →
      HTMLInt.fitSideBySide true innerWidth area layout m = m) ∧
    (layout.expanded = true →
      HTMLInt.fitSideBySide true innerWidth none layout m = m) ∧
    (∀ rect, layout.expanded = true → area = some rect →
      HTMLInt.minContentWidth ≤
        innerWidth - layout.width - HTMLInt.sideBySidePadding →
      HTMLInt.fitSideBySide true innerWidth area layout m =
        ⟨some HTMLInt.sideBySidePadding,
         some (layout.width + HTMLInt.sideBySidePadding -
           max 0 (innerWidth - layout.width - HTMLInt.sideBySidePadding -
             rect.right))⟩) := by
  refine ⟨fun he => ?_, fun hx => ?_, fun hx hlt => ?_, fun hx => ?_,
    fun rect hx ha hge => ?_⟩
  · simp [HTMLInt.fitSideBySide, he]
  · simp [HTMLInt.fitSideBySide, hx]
  · cases area <;> simp [HTMLInt.fitSideBySide, hx, hlt]
  · by_cases hlt : innerWidth - layout.width - HTMLInt.sideBySidePadding <
        HTMLInt.minContentWidth <;>
      simp [HTMLInt.fitSideBySide, hx, hlt]
  · subst ha
    simp [HTMLInt.fitSideBySide, hx, not_lt.mpr hge]

/-- C1 witness: the configuration of the test suite's activation case —
side-by-side enabled, viewport 800px wide, sidebar expanded to 200px, main
content spanning `[0, 588]` — sets the body margins to 12px left and 212px
right. -/
theorem c1_fitSideBySide_witness :
    HTMLInt.fitSideBySide true 800 (some ⟨0, 588⟩) ⟨true, 200⟩ ⟨none, none⟩ =
      ⟨some 12, some 212⟩ := by
  have h := (c1_fitSideBySide true 800 (some ⟨0, 588⟩) ⟨true, 200⟩
    ⟨none, none⟩).2.2.2.2 ⟨0, 588⟩ rfl rfl (by decide)
  exact h.trans (by decide)

/-- C10: the `NotebookModal` starts hidden; an `openNotebook` event on the
event bus makes it visible; pressing the close button hides it and publishes
a `closeNotebook` event; and in every reachable state the body's overflow
style is `'hidden'` exactly while the modal is visible, and is restored to
its original value when the modal is hidden or the component is
destroyed. -/
theorem c10_notebook_modal (o : String) (es : List Notebook.Event) :
    (Notebook.init o).isHidden = true ∧
    (∀ s : Notebook.ModalState, s.destroyed = false →
      (Notebook.step s .openNotebook).isHidden = false) ∧
    (∀ s : Notebook.ModalState, s.destroyed = false →
      (Notebook.step s .closeButton).isHidden = true ∧
      (Notebook.step s .closeButton).published =
        s.published ++ [ "closeNotebook" ]) ∧
    ((Notebook.run (Notebook.init o) es).destroyed = false →
      (Notebook.run (Notebook.init o) es).bodyOverflow =
        if (Notebook.run (Notebook.init o) es).isHidden then o else "hidden") ∧
    ((Notebook.run (Notebook.init o) es).destroyed = true →
      (Notebook.run (Notebook.init o) es).bodyOverflow = o) := by
  have hinit : Notebook.Inv o (Notebook.init o) :=
    ⟨rfl, fun _ => rfl, fun h => by simp [Notebook.init] at h⟩
  have hstep : ∀ s e, Notebook.Inv o s → Notebook.Inv o (Notebook.step s e) := by
    rintro s e ⟨h1, h2, h3⟩
    by_cases hd : s.destroyed = true
    · cases e <;> simp [Notebook.step, Notebook.Inv, hd, h1, h3 hd]
    · have hd' : s.destroyed = false := by simpa using hd
      cases e <;> simp [Notebook.step, Notebook.Inv, hd', h1]
  have hrun : ∀ es s, Notebook.Inv o s → Notebook.Inv o (Notebook.run s es) := by
    intro es
    induction es with
    | nil => exact fun s h => h
    | cons e es ih =>
        intro s h
        exact ih (Notebook.step s e) (hstep s e h)
  rcases hrun es (Notebook.init o) hinit with ⟨h1, h2, h3⟩
  refine ⟨rfl, fun s hs => by simp [Notebook.step, hs], fun s hs => ?_, h2, h3⟩
  constructor <;> simp [Notebook.step, hs]

/-- C10 witness: mounting over a body with overflow `"auto"` and receiving
one `openNotebook` event leaves the modal visible with the body overflow set
to `'hidden'`. -/
theorem c10_notebook_modal_witness :
    (Notebook.run (Notebook.init "auto") [Notebook.Event.openNotebook]).bodyOverflow =
      "hidden" := by
  have h := (c10_notebook_modal "auto" [Notebook.Event.openNotebook]).2.2.2.1
    (by decide)
  exact h.trans (by decide)

end Client
